import Mathlib

/-!
Shallow embedding of src/backend/fraud_detector.py (class FraudDetector) and
proofs about its risk report.

Conventions of the embedding:
* Python floats are modelled as exact rationals.
* pdfplumber character dictionaries are modelled by the Glyph structure,
  restricted to the keys the detectors read; a missing key is an Option none.
* Detector bodies that can raise are modelled with an explicit error input
  (FileInput.err, StreamInput.err, a Boolean flag, or CAErr).  In five of the
  six detectors every operation that can raise (pdfplumber.open, page
  iteration, the comparisons on untyped char fields, PyPDF2.PdfReader,
  textstat, the regex calls) sits before the first write of risk_score into
  the result dictionary, so their except branch returns the dictionary
  initialised at the top of the body.  The content-authenticity detector is
  the exception: its contact_info lookup can raise after the first two score
  accumulations, so its error input CAErr distinguishes an early raise from
  a raise at that lookup.
* External libraries (pdfplumber, PyPDF2, textstat, re) are modelled at the
  boundary the code reads from them: glyph streams, content stream matches,
  the readability score and the match count of the two backreference
  repetition regexes are inputs of the embedding.
* The details sub-dictionaries of the signal results are not modelled; no
  claim mentions them.
-/

/-- A Python value that may appear as a color entry of a pdfplumber character
dictionary: either a string or some non-string object (pdfplumber can also
put tuples there).  Only strings can be parsed by the two color helpers; a
non-string value makes them return False through their exception handler. -/
inductive PyVal where
  | str (s : String)
  | nonStr

/-- The code points the Python call int(x, 16) strips around the digits:
Python first maps every Unicode whitespace to an ASCII space and then strips.
The set is the ASCII range tab through carriage return (9-13), the
separators 1c-1f, the space, next line 85, no-break space a0, ogham space
mark 1680, the general punctuation spaces 2000-200a, the line and paragraph
separators 2028-2029, narrow no-break space 202f, medium mathematical space
205f and ideographic space 3000. -/
def isPySpace (c : Char) : Bool :=
  (decide (9 ≤ c.toNat) && decide (c.toNat ≤ 13))
    || (decide (0x1C ≤ c.toNat) && decide (c.toNat ≤ 0x1F))
    || c == ' ' || c.toNat == 0x85 || c.toNat == 0xA0 || c.toNat == 0x1680
    || (decide (0x2000 ≤ c.toNat) && decide (c.toNat ≤ 0x200A))
    || c.toNat == 0x2028 || c.toNat == 0x2029 || c.toNat == 0x202F
    || c.toNat == 0x205F || c.toNat == 0x3000

/-- Value of one hexadecimal digit, as accepted by int(x, 16). -/
def hexVal (c : Char) : Option ℕ :=
  if '0' ≤ c ∧ c ≤ '9' then some (c.toNat - '0'.toNat)
  else if 'a' ≤ c ∧ c ≤ 'f' then some (c.toNat - 'a'.toNat + 10)
  else if 'A' ≤ c ∧ c ≤ 'F' then some (c.toNat - 'A'.toNat + 10)
  else none

/-- Accumulating hexadecimal evaluation of a digit list; none when a
character is not a hexadecimal digit. -/
def hexDigitsAux : List Char → ℕ → Option ℕ
  | [], acc => some acc
  | c :: cs, acc =>
    match hexVal c with
    | some v => hexDigitsAux cs (acc * 16 + v)
    | none => none

/-- Model of the Python call int(s, 16) on the two-character slices the color
helpers take: surrounding whitespace and one optional sign are accepted,
then at least one ASCII hexadecimal digit is required.  The model is an
under-approximation of the program in one respect: Python also maps each
Unicode decimal digit (category Nd) to its ASCII digit before parsing, and
that table is not reproduced here, so this function returns none on some
exotic strings the program parses.  (The 0x prefix never reaches a digit
inside a two-character slice, so it needs no modelling.)  The theorems that
rely on a color being unparsable therefore never assume pyIntHex = none
alone; they go through definitelyUnparsableColor below, whose failure is
guaranteed for the program independently of the Unicode digit tables. -/
def pyIntHex (s : String) : Option ℤ :=
  let t := ((s.data.dropWhile isPySpace).reverse.dropWhile isPySpace).reverse
  match t with
  | [] => none
  | c :: cs =>
    if c = '+' then
      match cs with
      | [] => none
      | _ => (hexDigitsAux cs 0).map (fun n => (n : ℤ))
    else if c = '-' then
      match cs with
      | [] => none
      | _ => (hexDigitsAux cs 0).map (fun n => -(n : ℤ))
    else (hexDigitsAux t 0).map (fun n => (n : ℤ))

/-- FraudDetector._is_light_color and FraudDetector._colors_too_similar both
strip the leading hash signs, require exactly six remaining characters and
parse three two-character slices with int(x, 16); this helper is that shared
parse.  none corresponds to the length test failing (the code falls through
to return False) or to int raising into the handler (also False).  It
inherits the Unicode-digit under-approximation of pyIntHex, so unparsability
arguments about the program use definitelyUnparsableColor, not this none. -/
def parseColor : PyVal → Option (ℤ × ℤ × ℤ)
  | PyVal.nonStr => none
  | PyVal.str s =>
    let t := s.data.dropWhile (fun c => c = '#')
    if t.length = 6 then
      match pyIntHex (List.asString (t.take 2)),
            pyIntHex (List.asString ((t.drop 2).take 2)),
            pyIntHex (List.asString ((t.drop 4).take 2)) with
      | some r, some g, some b => some (r, g, b)
      | _, _, _ => none
    else none

/-- Over-approximation of the characters that the Python call int(x, 16) can
ever consume in a successful parse: ASCII hexadecimal digits, the two signs,
the underscore, the prefix letters x and X, every code point Python strips
as whitespace, and - conservatively - every code point outside ASCII, since
those may be Unicode decimal digits or Unicode whitespace, which Python maps
to ASCII before parsing.  A string containing a character outside this set
makes every int(x, 16) call on it raise ValueError, whatever the Unicode
tables of the running interpreter say. -/
def pyIntPossible (c : Char) : Bool :=
  decide (128 ≤ c.toNat)
    || (hexVal c).isSome
    || c == '+' || c == '-' || c == '_' || c == 'x' || c == 'X'
    || isPySpace c

/-- Colors whose parse is guaranteed to fail in the program, independently of
the Unicode digit tables: a non-string value, a string without exactly six
characters after stripping the leading hash signs, or one of whose three
two-character slices contains a character int(x, 16) can never consume. -/
def definitelyUnparsableColor : PyVal → Bool
  | PyVal.nonStr => true
  | PyVal.str s =>
    let t := s.data.dropWhile (fun c => c = '#')
    decide (t.length ≠ 6)
      || (t.take 2).any (fun c => !pyIntPossible c)
      || ((t.drop 2).take 2).any (fun c => !pyIntPossible c)
      || ((t.drop 4).take 2).any (fun c => !pyIntPossible c)

/-- FraudDetector._is_light_color. -/
def is_light_color (v : PyVal) : Bool :=
  match parseColor v with
  | some (r, g, b) =>
    decide ((0.299 * (r : ℚ) + 0.587 * (g : ℚ) + 0.114 * (b : ℚ)) / 255 > 0.9)
  | none => false

/-- FraudDetector._colors_too_similar.  The source compares the square root
of the squared distance with 30; both sides being nonnegative this is
equivalent to comparing the squared distance with 900, which stays inside ℚ
(the squared distance is an integer small enough that the float square root
is exact at the boundary, so the two comparisons agree on every input). -/
def colors_too_similar (v1 v2 : PyVal) : Bool :=
  match parseColor v1, parseColor v2 with
  | some (r1, g1, b1), some (r2, g2, b2) =>
    decide ((((r1 - r2) ^ 2 + (g1 - g2) ^ 2 + (b1 - b2) ^ 2 : ℤ) : ℚ) < 900)
  | _, _ => false

/-- One pdfplumber character dictionary, restricted to the keys
_detect_white_text and _analyze_suspicious_formatting read.  x0 and y0 stand
for char.get with default 0; size none stands for a missing size key (the
two detectors use different defaults and truthiness tests on it); color none
means the color key is missing; bgcolor none means the bgcolor key is
missing or falsy (the code guards it with a truthiness test). -/
structure Glyph where
  text : String
  x0 : ℚ
  y0 : ℚ
  size : Option ℚ
  color : Option PyVal
  bgcolor : Option PyVal

/-- One pdfplumber page: its characters and the two page.bbox entries the
off-page test reads. -/
structure Page where
  chars : List Glyph
  bbox2 : ℚ
  bbox3 : ℚ

/-- A pdfplumber document: its ordered page list. -/
structure PdfDoc where
  pages : List Page

/-- The file as each file-reading detector sees it: a PDF that opens, a path
that does not end in .pdf (the detector body is skipped), or err - the
library raised inside the try block. -/
inductive FileInput where
  | pdfDoc (d : PdfDoc)
  | nonPdf
  | err

/-- Light-color hit of the first per-character loop: only characters whose
color key is present are tested. -/
def lightHit (c : Glyph) : Bool :=
  match c.color with
  | some v => is_light_color v
  | none => false

/-- Tiny-font hit of the first per-character loop (size below 2, with the
char.get default 12 for a missing key). -/
def tinyFontHit (c : Glyph) : Bool :=
  decide (c.size.getD 12 < 2)

/-- Increments of the first per-character loop; one character can score both
a light-color hit and a tiny-font hit. -/
def charHits (c : Glyph) : ℕ :=
  (if lightHit c then 1 else 0) + (if tinyFontHit c then 1 else 0)

/-- Off-page positioning hit of the second per-character loop. -/
def offPageHit (p : Page) (c : Glyph) : Bool :=
  decide (c.x0 < 0) || decide (c.y0 < 0) ||
    decide (c.x0 > p.bbox2 + 50) || decide (c.y0 > p.bbox3 + 50)

/-- One overlapping pair: positions closer than 1 on both axes and distinct
text. -/
def overlapHit (a b : Glyph) : Bool :=
  decide (|a.x0 - b.x0| < 1) && decide (|a.y0 - b.y0| < 1)
    && decide (a.text ≠ b.text)

/-- Number of index pairs i < j the overlap loop counts on one page. -/
def overlapPairs : List Glyph → ℕ
  | [] => 0
  | c :: cs => cs.countP (overlapHit c) + overlapPairs cs

/-- Fill/background collision hit of the fourth per-character loop: the
bgcolor key must be present and truthy, and the color key defaults to the
string #000000 when missing. -/
def bgCollisionHit (c : Glyph) : Bool :=
  match c.bgcolor with
  | some bg => colors_too_similar bg (c.color.getD (PyVal.str "#000000"))
  | none => false

/-- The suspicious_elements contributions of one page: the per-character
hits, the off-page hits, the overlap count when it exceeds 5, and the
collision hits. -/
def pageSuspicious (p : Page) : ℕ :=
  (p.chars.map charHits).sum
    + p.chars.countP (offPageHit p)
    + (if overlapPairs p.chars > 5 then overlapPairs p.chars else 0)
    + p.chars.countP bgCollisionHit

/-- total_elements: every character of every page is counted once. -/
def totalElements (d : PdfDoc) : ℕ :=
  (d.pages.map (fun p => p.chars.length)).sum

/-- suspicious_elements accumulated over all pages. -/
def suspiciousElements (d : PdfDoc) : ℕ :=
  (d.pages.map pageSuspicious).sum

/-- white_text_ratio = suspicious_elements / total_elements.  The detector
only reads it under total_elements > 0; rational division by zero is 0,
which keeps the unreachable case harmless. -/
def white_text_ratio (d : PdfDoc) : ℚ :=
  (suspiciousElements d : ℚ) / (totalElements d : ℚ)

/-- The chars variable the tiny-text count reads after the page loop ended
still holds the characters of the last page only, while the denominator
total_elements ranges over every page; the embedding keeps that asymmetry
exactly as the source has it. -/
def lastPageChars (d : PdfDoc) : List Glyph :=
  (d.pages.getLastD { chars := [], bbox2 := 0, bbox3 := 0 }).chars

/-- tiny_text_count: characters of the last page with size below 3 (char.get
default 12). -/
def tinyTextCount (d : PdfDoc) : ℕ :=
  (lastPageChars d).countP (fun c => decide (c.size.getD 12 < 3))

/-- tiny_text_ratio = tiny_text_count / total_elements, 0 when there are no
elements. -/
def tiny_text_ratio (d : PdfDoc) : ℚ :=
  if totalElements d > 0 then (tinyTextCount d : ℚ) / (totalElements d : ℚ) else 0

/-- One signal result dictionary (the details sub-dictionary is not
modelled). -/
structure Signal where
  detected : Bool
  risk_score : ℚ
  issues : List String

/-- The dictionary every detector initialises before its try block; it is
also what a detector returns when its body raises at its first fallible
call. -/
def initSignal : Signal := { detected := false, risk_score := 0, issues := [] }

/-- FraudDetector._detect_white_text.  The interpolated numbers of the issue
messages are elided; the claims only read the issue lists structurally. -/
def detect_white_text : FileInput → Signal
  | FileInput.pdfDoc d =>
    if totalElements d > 0 then
      let ratio := white_text_ratio d
      let tinyR := tiny_text_ratio d
      let s1 : Signal :=
        if ratio > 0.05 then
          { detected := true, risk_score := min (ratio * 3) 1,
            issues := ["Potential white/hidden text detected"] }
        else initSignal
      if tinyR > 0.1 then
        { detected := true, risk_score := max s1.risk_score (min (tinyR * 2) 1),
          issues := s1.issues ++ ["Excessive tiny text detected"] }
      else s1
    else initSignal
  | _ => initSignal

/-- The commonly_stuffed_skills watchlist of the constructor. -/
def commonly_stuffed_skills : List String :=
  ["python", "java", "javascript", "react", "angular", "node.js",
   "aws", "docker", "kubernetes", "machine learning", "ai", "sql"]

/-- ASCII model of str.lower; every skill on the watchlist is ASCII, so only
ASCII case can change a watchlist count. -/
def toLowerAscii (c : Char) : Char :=
  if 'A' ≤ c ∧ c ≤ 'Z' then Char.ofNat (c.toNat + 32) else c

/-- ASCII model of the regex word class. -/
def isWordChar (c : Char) : Bool := c.isAlphanum || c == '_'

/-- re.findall of word-character runs: the maximal nonempty runs, in order;
acc carries the reversed current run. -/
def splitWordsAux : List Char → List Char → List (List Char)
  | [], acc => if acc.isEmpty then [] else [acc.reverse]
  | c :: cs, acc =>
    if isWordChar c then splitWordsAux cs (c :: acc)
    else if acc.isEmpty then splitWordsAux cs []
    else acc.reverse :: splitWordsAux cs []

/-- The lowercased word token list of _detect_keyword_stuffing. -/
def tokenize (s : String) : List String :=
  (splitWordsAux (s.data.map toLowerAscii) []).map List.asString

/-- The watchlist entries flagged by the frequency test: frequency above two
percent and count above 5. -/
def stuffedSkills (words : List String) : List String :=
  commonly_stuffed_skills.filter (fun sk =>
    let c := words.count sk
    let freq : ℚ := if words.length > 0 then (c : ℚ) / (words.length : ℚ) else 0
    decide (freq > 0.02) && decide (c > 5))

/-- FraudDetector._detect_keyword_stuffing.  repeatHits is the combined
number of re.findall matches of the two repetition regexes of the
constructor (backreference regexes of the re module, supplied to the
embedding as a count; both need a nonempty repeated unit, so empty text has
zero matches); err models the body raising at its first fallible call. -/
def detect_keyword_stuffing (text : String) (repeatHits : ℕ) (err : Bool) : Signal :=
  if err then initSignal
  else
    let stuffed := stuffedSkills (tokenize text)
    { detected := decide (stuffed.length > 0 ∨ repeatHits > 0)
      risk_score := min (((stuffed.length + repeatHits : ℕ) : ℚ) * 0.2) 1
      issues :=
        (if stuffed.length > 0 then ["Potential keyword stuffing detected"] else [])
          ++ (if repeatHits > 0 then ["Suspicious repetition patterns found"] else []) }

/-- The zero-width and byte-order-mark code points of the first
invisible-characters pattern. -/
def isZeroWidth (c : Char) : Bool :=
  (decide (0x200B ≤ c.toNat) && decide (c.toNat ≤ 0x200D))
    || decide (c.toNat = 0x2060) || decide (c.toNat = 0xFEFF)

/-- Non-overlapping matches of the greedy space-run regex: the maximal runs
of at least five spaces; run is the length of the current run. -/
def spaceRunCount : List Char → ℕ → ℕ
  | [], run => if run ≥ 5 then 1 else 0
  | c :: cs, run =>
    if c = ' ' then spaceRunCount cs (run + 1)
    else (if run ≥ 5 then 1 else 0) + spaceRunCount cs 0

/-- FraudDetector._detect_invisible_characters. -/
def detect_invisible_characters (text : String) (err : Bool) : Signal :=
  if err then initSignal
  else
    let zw := text.data.countP isZeroWidth
    let runs := spaceRunCount text.data 0
    if zw + runs > 0 then
      { detected := true
        risk_score := min (((zw + runs : ℕ) : ℚ) * 0.1) 1
        issues :=
          (if zw > 0 then ["Invisible characters detected"] else [])
            ++ (if runs > 10 then ["Excessive whitespace patterns"] else []) }
    else initSignal

/-- The sizes _analyze_suspicious_formatting collects: characters whose size
key is present and truthy (nonzero), over every page. -/
def fontSizes (d : PdfDoc) : List ℚ :=
  (d.pages.map (fun p => p.chars.filterMap (fun c =>
    match c.size with
    | some s => if s ≠ 0 then some s else none
    | none => none))).flatten

/-- Population variance, as numpy.var computes it. -/
def listVariance (xs : List ℚ) : ℚ :=
  let n : ℚ := (xs.length : ℚ)
  let m : ℚ := xs.sum / n
  (xs.map (fun x => (x - m) ^ 2)).sum / n

/-- FraudDetector._analyze_suspicious_formatting. -/
def analyze_suspicious_formatting : FileInput → Signal
  | FileInput.pdfDoc d =>
    let fs := fontSizes d
    if fs.length > 0 then
      let v := if fs.length > 1 then listVariance fs else 0
      let tinyR : ℚ := ((fs.countP (fun s => decide (s < 3)) : ℕ) : ℚ) / (fs.length : ℚ)
      { detected := decide (tinyR > 0.05) || decide (v > 50)
        risk_score := (if tinyR > 0.05 then (0.3 : ℚ) else 0) + (if v > 50 then (0.2 : ℚ) else 0)
        issues :=
          (if tinyR > 0.05 then ["Unusually small text detected"] else [])
            ++ (if v > 50 then ["Highly variable font sizes detected"] else []) }
    else initSignal
  | _ => initSignal

/-- The parsed-data fields _analyze_content_authenticity reads, after the
defaulting .get chains of the source.  readability is
textstat.flesch_reading_ease(raw_text): the readability library is external,
so its result is an input of the embedding, exactly as the specification
lists readability among the detector inputs. -/
structure ParsedData where
  raw_text : String
  readability : ℚ
  skillCount : ℕ
  experienceYears : ℚ
  hasEmail : Bool
  hasPhone : Bool

/-- Where _analyze_content_authenticity can raise.  ok: no exception.
early: an exception before any score accumulation (the raw_text lookup, the
textstat call, the skills and experience .get chains, or the first two
comparisons on untyped values all sit before the first risk_score
addition).  atContact: the contact_info.get lookup raising - for example
when parsed_data carries contact_info None - which sits after the first two
accumulations (0.3 and 0.2), before the last two, and before the red flags
are assigned into detected and issues. -/
inductive CAErr where
  | ok
  | early
  | atContact

/-- FraudDetector._analyze_content_authenticity.  The early branch returns
the initialised dictionary; the atContact branch returns what the except
handler sees after the first two accumulations: a partial risk score with
detected still false and no issues. -/
def analyze_content_authenticity (pd : ParsedData) (err : CAErr) : Signal :=
  match err with
  | CAErr.early => initSignal
  | CAErr.atContact =>
    { detected := false
      risk_score :=
        (if pd.experienceYears < 2 ∧ pd.skillCount > 20 then (0.3 : ℚ) else 0)
          + (if pd.readability < 30 then (0.2 : ℚ) else 0)
      issues := [] }
  | CAErr.ok =>
    let f1 := decide (pd.experienceYears < 2 ∧ pd.skillCount > 20)
    let f2 := decide (pd.readability < 30)
    let f3 := !pd.hasEmail && !pd.hasPhone
    let f4 := decide (pd.experienceYears > 50)
    { detected := f1 || f2 || f3 || f4
      risk_score :=
        (if f1 then (0.3 : ℚ) else 0) + (if f2 then (0.2 : ℚ) else 0)
          + (if f3 then (0.1 : ℚ) else 0) + (if f4 then (0.4 : ℚ) else 0)
      issues :=
        (if f1 then ["Excessive skills for experience level"] else [])
          ++ (if f2 then ["Poor text readability"] else [])
          ++ (if f3 then ["Missing basic contact information"] else [])
          ++ (if f4 then ["Unrealistic experience duration"] else []) }

/-- One decoded content-stream item, classified the way the regex scans of
_analyze_pdf_content_streams classify the stream text: a match of the white
color command alternation, a text rendering mode operator with its operand,
a text positioning operator with its two operands, or one match of the four
CSS-like white font patterns. -/
inductive CSToken where
  | whiteFill
  | trOp (mode : ℕ)
  | tdOp (x y : ℚ)
  | cssWhite

/-- The decoded content stream of one page; pages whose get_contents is
falsy never reach the scans and are not listed. -/
structure StreamPage where
  tokens : List CSToken

/-- The file as _analyze_pdf_content_streams sees it. -/
inductive StreamInput where
  | pdfDoc (pages : List StreamPage)
  | nonPdf
  | err

def isCssWhite : CSToken → Bool
  | CSToken.cssWhite => true
  | _ => false

def isTr3 : CSToken → Bool
  | CSToken.trOp m => decide (m = 3)
  | _ => false

def isWhiteFill : CSToken → Bool
  | CSToken.whiteFill => true
  | _ => false

def isOffPageTd : CSToken → Bool
  | CSToken.tdOp x y =>
    decide (x < 0) || decide (y < 0) || decide (x > 1000) || decide (y > 1000)
  | _ => false

/-- suspicious_patterns contributed by one page: every CSS pattern match,
every invisible rendering mode, one hit for the whole group of white color
commands when they number more than five, and every off-page Td. -/
def streamPageHits (p : StreamPage) : ℕ :=
  p.tokens.countP isCssWhite + p.tokens.countP isTr3
    + (if p.tokens.countP isWhiteFill > 5 then 1 else 0)
    + p.tokens.countP isOffPageTd

def totalStreamHits (pages : List StreamPage) : ℕ :=
  (pages.map streamPageHits).sum

/-- FraudDetector._analyze_pdf_content_streams. -/
def analyze_pdf_content_streams : StreamInput → Signal
  | StreamInput.pdfDoc pages =>
    let h := totalStreamHits pages
    if h > 0 then
      { detected := true, risk_score := min ((h : ℚ) * 0.2) 1,
        issues := ["PDF content stream manipulation detected"] }
    else initSignal
  | _ => initSignal

/-- The six entries of detailed_analysis, in dictionary insertion order. -/
structure Signals where
  white_text : Signal
  keyword_stuffing : Signal
  invisible_characters : Signal
  suspicious_formatting : Signal
  content_authenticity : Signal
  pdf_stream_analysis : Signal

/-- The entries in the iteration order of the detailed_analysis dictionary
(Python dictionaries preserve insertion order). -/
def Signals.toList (s : Signals) : List Signal :=
  [s.white_text, s.keyword_stuffing, s.invisible_characters,
   s.suspicious_formatting, s.content_authenticity, s.pdf_stream_analysis]

/-- The analysis dictionary analyze returns; detailed_analysis none is the
empty dictionary of the fallback report. -/
structure FraudReport where
  overall_risk_score : ℚ
  risk_level : String
  detected_issues : List String
  detailed_analysis : Option Signals

/-- The issue compilation loop of analyze: iterate the detailed_analysis
entries in insertion order and extend with the issues of detected signals. -/
def compileIssues (sigs : List Signal) : List String :=
  sigs.foldl (fun acc s => if s.detected then acc ++ s.issues else acc) []

/-- The risk level thresholds of analyze. -/
def risk_level_of (q : ℚ) : String :=
  if q ≥ 0.7 then "high" else if q ≥ 0.4 then "medium" else "low"

/-- Everything FraudDetector.analyze consumes.  The three file-reading
detectors each reopen the file through their own library calls inside their
own try blocks, so each gets its own view of the file and can fail
independently of the other two; parsed none models the raw_text lookup
raising, which the top-level handler of analyze turns into the fallback
report. -/
structure AnalyzeInput where
  whiteFile : FileInput
  fmtFile : FileInput
  streamFile : StreamInput
  parsed : Option ParsedData
  repeatHits : ℕ
  kwErr : Bool
  invErr : Bool
  caErr : CAErr

/-- The six detector runs of analyze on one input. -/
def analyzeSignals (inp : AnalyzeInput) (pd : ParsedData) : Signals :=
  { white_text := detect_white_text inp.whiteFile
    keyword_stuffing := detect_keyword_stuffing pd.raw_text inp.repeatHits inp.kwErr
    invisible_characters := detect_invisible_characters pd.raw_text inp.invErr
    suspicious_formatting := analyze_suspicious_formatting inp.fmtFile
    content_authenticity := analyze_content_authenticity pd inp.caErr
    pdf_stream_analysis := analyze_pdf_content_streams inp.streamFile }

/-- FraudDetector.analyze. -/
def analyze (inp : AnalyzeInput) : FraudReport :=
  match inp.parsed with
  | none =>
    { overall_risk_score := 0, risk_level := "unknown",
      detected_issues := ["Analysis failed"], detailed_analysis := none }
  | some pd =>
    let sigs := analyzeSignals inp pd
    let scores := sigs.toList.map Signal.risk_score
    let overall := scores.sum / (scores.length : ℚ)
    { overall_risk_score := overall
      risk_level := risk_level_of overall
      detected_issues := compileIssues sigs.toList
      detailed_analysis := some sigs }

/-! Basic facts about the white-text ratios and a closed form of the
white-text detector result. -/

lemma white_text_ratio_nonneg (d : PdfDoc) : 0 ≤ white_text_ratio d := by
  unfold white_text_ratio
  positivity

lemma tiny_text_ratio_nonneg (d : PdfDoc) : 0 ≤ tiny_text_ratio d := by
  unfold tiny_text_ratio
  split
  · positivity
  · exact le_refl 0

lemma detect_white_text_risk_closed (d : PdfDoc) (h : 0 < totalElements d) :
    (detect_white_text (FileInput.pdfDoc d)).risk_score
      = max (if white_text_ratio d > 0.05 then min (white_text_ratio d * 3) 1 else 0)
            (if tiny_text_ratio d > 0.1 then min (tiny_text_ratio d * 2) 1 else 0) := by
  simp only [detect_white_text]
  rw [if_pos h]
  by_cases hr : white_text_ratio d > 0.05 <;> by_cases ht : tiny_text_ratio d > 0.1 <;>
      simp only [hr, ht, if_true, if_false, initSignal] <;>
    first
      | rfl
      | exact (max_eq_left (le_min (by positivity) zero_le_one)).symm

lemma detect_white_text_detected_closed (d : PdfDoc) (h : 0 < totalElements d) :
    (detect_white_text (FileInput.pdfDoc d)).detected
      = (decide (white_text_ratio d > 0.05) || decide (tiny_text_ratio d > 0.1)) := by
  simp only [detect_white_text]
  rw [if_pos h]
  by_cases hr : white_text_ratio d > 0.05 <;> by_cases ht : tiny_text_ratio d > 0.1 <;>
    simp [hr, ht, initSignal]

/-! Every detector keeps its risk score inside the unit interval. -/

lemma detect_white_text_bounds (f : FileInput) :
    0 ≤ (detect_white_text f).risk_score ∧ (detect_white_text f).risk_score ≤ 1 := by
  cases f with
  | pdfDoc d =>
    rcases Nat.eq_zero_or_pos (totalElements d) with h0 | hpos
    · simp only [detect_white_text]
      rw [if_neg (by omega)]
      exact ⟨le_refl 0, zero_le_one⟩
    · rw [detect_white_text_risk_closed d hpos]
      have hb1 : 0 ≤ (if white_text_ratio d > 0.05 then min (white_text_ratio d * 3) 1 else 0) := by
        split
        · exact le_min (by positivity) zero_le_one
        · exact le_refl 0
      have hb2 : (if white_text_ratio d > 0.05 then min (white_text_ratio d * 3) 1 else 0) ≤ 1 := by
        split
        · exact min_le_right _ _
        · exact zero_le_one
      have hb3 : (if tiny_text_ratio d > 0.1 then min (tiny_text_ratio d * 2) 1 else 0) ≤ 1 := by
        split
        · exact min_le_right _ _
        · exact zero_le_one
      exact ⟨le_trans hb1 (le_max_left _ _), max_le hb2 hb3⟩
  | nonPdf => exact ⟨le_refl 0, zero_le_one⟩
  | err => exact ⟨le_refl 0, zero_le_one⟩

lemma detect_keyword_stuffing_bounds (t : String) (rh : ℕ) (e : Bool) :
    0 ≤ (detect_keyword_stuffing t rh e).risk_score ∧
      (detect_keyword_stuffing t rh e).risk_score ≤ 1 := by
  unfold detect_keyword_stuffing
  split
  · exact ⟨le_refl 0, zero_le_one⟩
  · exact ⟨le_min (by positivity) zero_le_one, min_le_right _ _⟩

lemma detect_invisible_characters_bounds (t : String) (e : Bool) :
    0 ≤ (detect_invisible_characters t e).risk_score ∧
      (detect_invisible_characters t e).risk_score ≤ 1 := by
  unfold detect_invisible_characters
  split
  · exact ⟨le_refl 0, zero_le_one⟩
  · dsimp only
    split
    · exact ⟨le_min (by positivity) zero_le_one, min_le_right _ _⟩
    · exact ⟨le_refl 0, zero_le_one⟩

lemma analyze_suspicious_formatting_bounds (f : FileInput) :
    0 ≤ (analyze_suspicious_formatting f).risk_score ∧
      (analyze_suspicious_formatting f).risk_score ≤ 1 := by
  cases f with
  | pdfDoc d =>
    simp only [analyze_suspicious_formatting]
    split
    · constructor <;> dsimp only <;> split_ifs <;> norm_num
    · exact ⟨le_refl 0, zero_le_one⟩
  | nonPdf => exact ⟨le_refl 0, zero_le_one⟩
  | err => exact ⟨le_refl 0, zero_le_one⟩

lemma analyze_content_authenticity_bounds (pd : ParsedData) (e : CAErr) :
    0 ≤ (analyze_content_authenticity pd e).risk_score ∧
      (analyze_content_authenticity pd e).risk_score ≤ 1 := by
  cases e with
  | early => exact ⟨le_refl 0, zero_le_one⟩
  | atContact =>
    constructor <;> simp only [analyze_content_authenticity] <;> split_ifs <;> norm_num
  | ok =>
    constructor <;> simp only [analyze_content_authenticity] <;>
      split_ifs <;> norm_num

lemma analyze_pdf_content_streams_bounds (s : StreamInput) :
    0 ≤ (analyze_pdf_content_streams s).risk_score ∧
      (analyze_pdf_content_streams s).risk_score ≤ 1 := by
  cases s with
  | pdfDoc pages =>
    simp only [analyze_pdf_content_streams]
    split
    · exact ⟨le_min (by positivity) zero_le_one, min_le_right _ _⟩
    · exact ⟨le_refl 0, zero_le_one⟩
  | nonPdf => exact ⟨le_refl 0, zero_le_one⟩
  | err => exact ⟨le_refl 0, zero_le_one⟩

/-! The shape of a normally returned report. -/

lemma analyze_detailed_of_parsed (inp : AnalyzeInput) (pd : ParsedData)
    (h : inp.parsed = some pd) :
    (analyze inp).detailed_analysis = some (analyzeSignals inp pd) := by
  simp [analyze, h]

lemma analyze_overall_of_parsed (inp : AnalyzeInput) (pd : ParsedData)
    (h : inp.parsed = some pd) :
    (analyze inp).overall_risk_score
      = ((analyzeSignals inp pd).white_text.risk_score
          + (analyzeSignals inp pd).keyword_stuffing.risk_score
          + (analyzeSignals inp pd).invisible_characters.risk_score
          + (analyzeSignals inp pd).suspicious_formatting.risk_score
          + (analyzeSignals inp pd).content_authenticity.risk_score
          + (analyzeSignals inp pd).pdf_stream_analysis.risk_score) / 6 := by
  simp [analyze, h, Signals.toList]
  ring_nf

lemma analyze_level_of_parsed (inp : AnalyzeInput) (pd : ParsedData)
    (h : inp.parsed = some pd) :
    (analyze inp).risk_level = risk_level_of (analyze inp).overall_risk_score := by
  simp [analyze, h]

lemma analyze_issues_of_parsed (inp : AnalyzeInput) (pd : ParsedData)
    (h : inp.parsed = some pd) :
    (analyze inp).detected_issues = compileIssues (analyzeSignals inp pd).toList := by
  simp [analyze, h]

/-! Concrete inputs used by the witnesses and counterexamples. -/

/-- A plain one-character glyph used by the concrete documents below. -/
def plainGlyph : Glyph :=
  { text := "a", x0 := 0, y0 := 0, size := some 12, color := none, bgcolor := none }

/-- All-empty parsed data with a given readability score (the readability of
the empty string is what textstat returns on it). -/
def emptyParsed (r : ℚ) : ParsedData :=
  { raw_text := "", readability := r, skillCount := 0, experienceYears := 0,
    hasEmail := false, hasPhone := false }

/-- The all-empty analysis input: a PDF with no pages, no content streams,
empty text and empty parsed fields. -/
def emptyInput (r : ℚ) : AnalyzeInput :=
  { whiteFile := FileInput.pdfDoc { pages := [] }
    fmtFile := FileInput.pdfDoc { pages := [] }
    streamFile := StreamInput.pdfDoc []
    parsed := some (emptyParsed r)
    repeatHits := 0, kwErr := false, invErr := false, caErr := CAErr.ok }

/-- An input on which all six detectors fail, each at its first fallible
operation. -/
def allFailInput : AnalyzeInput :=
  { whiteFile := FileInput.err, fmtFile := FileInput.err,
    streamFile := StreamInput.err, parsed := some (emptyParsed 100),
    repeatHits := 0, kwErr := true, invErr := true, caErr := CAErr.early }

/-- Parsed data on which the first two content-authenticity red flags fire:
almost no experience, many skills, very low readability. -/
def partialFailParsed : ParsedData :=
  { raw_text := "", readability := 10, skillCount := 21, experienceYears := 0,
    hasEmail := false, hasPhone := false }

/-- An input whose content-authenticity detector raises at the contact_info
lookup after accumulating 0.3 and 0.2, while the other five detectors see
nothing suspicious. -/
def partialFailInput : AnalyzeInput :=
  { whiteFile := FileInput.nonPdf, fmtFile := FileInput.nonPdf,
    streamFile := StreamInput.nonPdf, parsed := some partialFailParsed,
    repeatHits := 0, kwErr := false, invErr := false, caErr := CAErr.atContact }

/-- The signal the content-authenticity detector returns when it raises at
the contact_info lookup on partialFailParsed: half a point of risk with
detected still false and no evidence. -/
lemma ca_partialFail :
    analyze_content_authenticity partialFailParsed CAErr.atContact
      = { detected := false, risk_score := 1 / 2, issues := [] } := by
  have h1 : ((0 : ℚ) < 2 ∧ (21 : ℕ) > 20) := by norm_num
  have h2 : ((10 : ℚ) < 30) := by norm_num
  simp [analyze_content_authenticity, partialFailParsed, h1, h2]
  norm_num

lemma tokenize_empty : tokenize "" = [] := rfl

lemma stuffedSkills_nil : stuffedSkills [] = [] := by
  have h : ¬ ((0 : ℚ) > 0.02) := by norm_num
  simp [stuffedSkills, commonly_stuffed_skills, h]

lemma detect_keyword_stuffing_empty :
    detect_keyword_stuffing "" 0 false = initSignal := by
  have h1 : stuffedSkills (tokenize "") = [] := by rw [tokenize_empty, stuffedSkills_nil]
  simp [detect_keyword_stuffing, h1, initSignal]

/-! C1 -/

/-- C1: for every analysis that returns a detailed report, the overall risk
score and the risk score of each of the six signals, including the two
additive ones (formatting and content authenticity), lie inside the unit
interval. -/
theorem c1_risk_scores_in_unit_interval (inp : AnalyzeInput) (sigs : Signals)
    (h : (analyze inp).detailed_analysis = some sigs) :
    (0 ≤ (analyze inp).overall_risk_score ∧ (analyze inp).overall_risk_score ≤ 1) ∧
      ∀ s ∈ sigs.toList, 0 ≤ s.risk_score ∧ s.risk_score ≤ 1 := by
  cases hp : inp.parsed with
  | none => simp [analyze, hp] at h
  | some pd =>
    have hsig : sigs = analyzeSignals inp pd := by
      have h2 := h
      simp [analyze, hp] at h2
      exact h2.symm
    subst hsig
    have hw := detect_white_text_bounds inp.whiteFile
    have hk := detect_keyword_stuffing_bounds pd.raw_text inp.repeatHits inp.kwErr
    have hi := detect_invisible_characters_bounds pd.raw_text inp.invErr
    have hf := analyze_suspicious_formatting_bounds inp.fmtFile
    have hc := analyze_content_authenticity_bounds pd inp.caErr
    have hst := analyze_pdf_content_streams_bounds inp.streamFile
    refine ⟨?_, ?_⟩
    · rw [analyze_overall_of_parsed inp pd hp]
      constructor
      · apply div_nonneg _ (by norm_num)
        simp only [analyzeSignals]
        linarith [hw.1, hk.1, hi.1, hf.1, hc.1, hst.1]
      · rw [div_le_one (by norm_num)]
        simp only [analyzeSignals]
        linarith [hw.2, hk.2, hi.2, hf.2, hc.2, hst.2]
    · intro s hs
      simp only [Signals.toList, analyzeSignals, List.mem_cons, List.not_mem_nil,
        or_false] at hs
      rcases hs with rfl | rfl | rfl | rfl | rfl | rfl
      · exact hw
      · exact hk
      · exact hi
      · exact hf
      · exact hc
      · exact hst

theorem c1_risk_scores_in_unit_interval_witness :
    (0 ≤ (analyze (emptyInput 100)).overall_risk_score ∧
        (analyze (emptyInput 100)).overall_risk_score ≤ 1) ∧
      ∀ s ∈ (analyzeSignals (emptyInput 100) (emptyParsed 100)).toList,
        0 ≤ s.risk_score ∧ s.risk_score ≤ 1 :=
  c1_risk_scores_in_unit_interval (emptyInput 100)
    (analyzeSignals (emptyInput 100) (emptyParsed 100)) rfl

/-! C2 -/

/-- C2 counterexample: the content-authenticity detector raising at the
contact_info lookup after its first two accumulations is a failed detector
that contributes 1/2, not 0, to the mean: the overall risk score of an
otherwise all-zero analysis becomes 1/12. -/
theorem c2_counterexample :
    (analyzeSignals partialFailInput partialFailParsed).content_authenticity.risk_score
        = 1 / 2 ∧
      (analyzeSignals partialFailInput partialFailParsed).content_authenticity.detected
        = false ∧
      (analyze partialFailInput).overall_risk_score = 1 / 12 ∧ (1 / 12 : ℚ) ≠ 0 := by
  have hca : (analyzeSignals partialFailInput partialFailParsed).content_authenticity
      = { detected := false, risk_score := 1 / 2, issues := [] } := ca_partialFail
  have h1 : (analyzeSignals partialFailInput partialFailParsed).white_text
      = initSignal := rfl
  have h2 : (analyzeSignals partialFailInput partialFailParsed).keyword_stuffing
      = initSignal := detect_keyword_stuffing_empty
  have h3 : (analyzeSignals partialFailInput partialFailParsed).invisible_characters
      = initSignal := rfl
  have h4 : (analyzeSignals partialFailInput partialFailParsed).suspicious_formatting
      = initSignal := rfl
  have h6 : (analyzeSignals partialFailInput partialFailParsed).pdf_stream_analysis
      = initSignal := rfl
  refine ⟨by rw [hca], by rw [hca], ?_, by norm_num⟩
  rw [analyze_overall_of_parsed partialFailInput partialFailParsed rfl]
  rw [h1, h2, h3, h4, hca, h6]
  norm_num [initSignal]

/-- C2 corrected: for every analysis that returns normally, the overall risk
score is the arithmetic mean of exactly the six signal risk scores; a
detector that fails at its first fallible operation contributes 0, but the
content-authenticity detector raising at the contact_info lookup contributes
its partially accumulated score - up to 0.5 - with detected false and no
issues. -/
theorem c2_overall_is_mean_of_six (inp : AnalyzeInput) (sigs : Signals) (pd : ParsedData)
    (hp : inp.parsed = some pd)
    (h : (analyze inp).detailed_analysis = some sigs) :
    (analyze inp).overall_risk_score
        = (sigs.white_text.risk_score + sigs.keyword_stuffing.risk_score
            + sigs.invisible_characters.risk_score + sigs.suspicious_formatting.risk_score
            + sigs.content_authenticity.risk_score + sigs.pdf_stream_analysis.risk_score) / 6 ∧
      (inp.whiteFile = FileInput.err → sigs.white_text.risk_score = 0) ∧
      (inp.kwErr = true → sigs.keyword_stuffing.risk_score = 0) ∧
      (inp.invErr = true → sigs.invisible_characters.risk_score = 0) ∧
      (inp.fmtFile = FileInput.err → sigs.suspicious_formatting.risk_score = 0) ∧
      (inp.caErr = CAErr.early → sigs.content_authenticity.risk_score = 0) ∧
      (inp.caErr = CAErr.atContact →
        sigs.content_authenticity
          = { detected := false,
              risk_score :=
                (if pd.experienceYears < 2 ∧ pd.skillCount > 20 then (0.3 : ℚ) else 0)
                  + (if pd.readability < 30 then (0.2 : ℚ) else 0),
              issues := [] }) ∧
      (inp.streamFile = StreamInput.err → sigs.pdf_stream_analysis.risk_score = 0) := by
  have hsig : sigs = analyzeSignals inp pd := by
    have h2 := h
    simp [analyze, hp] at h2
    exact h2.symm
  subst hsig
  refine ⟨analyze_overall_of_parsed inp pd hp, ?_, ?_, ?_, ?_, ?_, ?_, ?_⟩
  · intro he
    simp [analyzeSignals, he, detect_white_text, initSignal]
  · intro he
    simp [analyzeSignals, he, detect_keyword_stuffing, initSignal]
  · intro he
    simp [analyzeSignals, he, detect_invisible_characters, initSignal]
  · intro he
    simp [analyzeSignals, he, analyze_suspicious_formatting, initSignal]
  · intro he
    simp [analyzeSignals, he, analyze_content_authenticity, initSignal]
  · intro he
    simp [analyzeSignals, he, analyze_content_authenticity]
  · intro he
    simp [analyzeSignals, he, analyze_pdf_content_streams, initSignal]

theorem c2_overall_is_mean_of_six_witness :
    (analyze partialFailInput).overall_risk_score
        = ((analyzeSignals partialFailInput partialFailParsed).white_text.risk_score
            + (analyzeSignals partialFailInput partialFailParsed).keyword_stuffing.risk_score
            + (analyzeSignals partialFailInput
                partialFailParsed).invisible_characters.risk_score
            + (analyzeSignals partialFailInput
                partialFailParsed).suspicious_formatting.risk_score
            + (analyzeSignals partialFailInput
                partialFailParsed).content_authenticity.risk_score
            + (analyzeSignals partialFailInput
                partialFailParsed).pdf_stream_analysis.risk_score) / 6 ∧
      (partialFailInput.whiteFile = FileInput.err →
        (analyzeSignals partialFailInput partialFailParsed).white_text.risk_score = 0) ∧
      (partialFailInput.kwErr = true →
        (analyzeSignals partialFailInput partialFailParsed).keyword_stuffing.risk_score
          = 0) ∧
      (partialFailInput.invErr = true →
        (analyzeSignals partialFailInput partialFailParsed).invisible_characters.risk_score
          = 0) ∧
      (partialFailInput.fmtFile = FileInput.err →
        (analyzeSignals partialFailInput partialFailParsed).suspicious_formatting.risk_score
          = 0) ∧
      (partialFailInput.caErr = CAErr.early →
        (analyzeSignals partialFailInput partialFailParsed).content_authenticity.risk_score
          = 0) ∧
      (partialFailInput.caErr = CAErr.atContact →
        (analyzeSignals partialFailInput partialFailParsed).content_authenticity
          = { detected := false,
              risk_score :=
                (if partialFailParsed.experienceYears < 2 ∧
                    partialFailParsed.skillCount > 20 then (0.3 : ℚ) else 0)
                  + (if partialFailParsed.readability < 30 then (0.2 : ℚ) else 0),
              issues := [] }) ∧
      (partialFailInput.streamFile = StreamInput.err →
        (analyzeSignals partialFailInput partialFailParsed).pdf_stream_analysis.risk_score
          = 0) :=
  c2_overall_is_mean_of_six partialFailInput
    (analyzeSignals partialFailInput partialFailParsed) partialFailParsed rfl rfl

/-! C3 -/

/-- Parsed data on which every content-authenticity condition is off. -/
def zeroParsed : ParsedData :=
  { raw_text := "", readability := 100, skillCount := 0, experienceYears := 2,
    hasEmail := true, hasPhone := true }

/-- A non-PDF submission whose six signals are all zero. -/
def zeroInput : AnalyzeInput :=
  { whiteFile := FileInput.nonPdf, fmtFile := FileInput.nonPdf,
    streamFile := StreamInput.nonPdf, parsed := some zeroParsed,
    repeatHits := 0, kwErr := false, invErr := false, caErr := CAErr.ok }

/-- An input on which the raw_text lookup raises, so analyze answers with
its fallback report. -/
def noParsedInput : AnalyzeInput :=
  { whiteFile := FileInput.nonPdf, fmtFile := FileInput.nonPdf,
    streamFile := StreamInput.nonPdf, parsed := none,
    repeatHits := 0, kwErr := false, invErr := false, caErr := CAErr.ok }

lemma detect_invisible_characters_empty :
    detect_invisible_characters "" false = initSignal := rfl

lemma ca_zeroParsed : analyze_content_authenticity zeroParsed CAErr.ok = initSignal := by
  have h1 : ¬ ((2 : ℚ) < 2 ∧ (0 : ℕ) > 20) := by norm_num
  have h4 : ¬ ((2 : ℚ) > 50) := by norm_num
  simp [analyze_content_authenticity, zeroParsed, h1, h4, initSignal]
  norm_num

lemma overall_zeroInput : (analyze zeroInput).overall_risk_score = 0 := by
  rw [analyze_overall_of_parsed zeroInput zeroParsed rfl]
  have h1 : (analyzeSignals zeroInput zeroParsed).white_text = initSignal := rfl
  have h2 : (analyzeSignals zeroInput zeroParsed).keyword_stuffing = initSignal :=
    detect_keyword_stuffing_empty
  have h3 : (analyzeSignals zeroInput zeroParsed).invisible_characters = initSignal := rfl
  have h4 : (analyzeSignals zeroInput zeroParsed).suspicious_formatting = initSignal := rfl
  have h5 : (analyzeSignals zeroInput zeroParsed).content_authenticity = initSignal :=
    ca_zeroParsed
  have h6 : (analyzeSignals zeroInput zeroParsed).pdf_stream_analysis = initSignal := rfl
  rw [h1, h2, h3, h4, h5, h6]
  norm_num [initSignal]

lemma level_zeroInput : (analyze zeroInput).risk_level = "low" := by
  rw [analyze_level_of_parsed zeroInput zeroParsed rfl, overall_zeroInput]
  norm_num [risk_level_of]

/-- C3 counterexample: the fallback report of a failed analysis and the
report of an all-zero analysis carry the same overall risk score 0 but
different risk levels, so the level is not a function of the score over all
returned reports. -/
theorem c3_counterexample :
    (analyze noParsedInput).overall_risk_score = (analyze zeroInput).overall_risk_score ∧
      (analyze noParsedInput).risk_level ≠ (analyze zeroInput).risk_level := by
  have hu : (analyze noParsedInput).risk_level = "unknown" := rfl
  have h0 : (analyze noParsedInput).overall_risk_score = 0 := rfl
  refine ⟨?_, ?_⟩
  · rw [h0, overall_zeroInput]
  · rw [hu, level_zeroInput]
    decide

/-- C3 amended: on every analysis that returns normally, the risk level is
the fixed-threshold function of the overall risk score (at least 0.7 high,
at least 0.4 medium, otherwise low), and two normally returning analyses
with the same overall risk score get the same risk level; the exception
fallback report instead carries the level unknown. -/
theorem c3_risk_level_pure_of_score (inp1 inp2 : AnalyzeInput) (pd1 pd2 : ParsedData)
    (h1 : inp1.parsed = some pd1) (h2 : inp2.parsed = some pd2) :
    ((analyze inp1).overall_risk_score ≥ 0.7 → (analyze inp1).risk_level = "high") ∧
      (0.4 ≤ (analyze inp1).overall_risk_score ∧ (analyze inp1).overall_risk_score < 0.7 →
        (analyze inp1).risk_level = "medium") ∧
      ((analyze inp1).overall_risk_score < 0.4 → (analyze inp1).risk_level = "low") ∧
      ((analyze inp1).overall_risk_score = (analyze inp2).overall_risk_score →
        (analyze inp1).risk_level = (analyze inp2).risk_level) := by
  have hl1 := analyze_level_of_parsed inp1 pd1 h1
  have hl2 := analyze_level_of_parsed inp2 pd2 h2
  refine ⟨?_, ?_, ?_, ?_⟩
  · intro hge
    rw [hl1]
    simp only [risk_level_of]
    rw [if_pos hge]
  · intro hmed
    rw [hl1]
    simp only [risk_level_of]
    rw [if_neg (by simp only [ge_iff_le, not_le]; linarith [hmed.2]), if_pos hmed.1]
  · intro hlt
    rw [hl1]
    simp only [risk_level_of]
    rw [if_neg (by simp only [ge_iff_le, not_le]; linarith),
      if_neg (by simp only [ge_iff_le, not_le]; linarith)]
  · intro heq
    rw [hl1, hl2, heq]

theorem c3_risk_level_pure_of_score_witness :
    ((analyze zeroInput).overall_risk_score ≥ 0.7 → (analyze zeroInput).risk_level = "high") ∧
      (0.4 ≤ (analyze zeroInput).overall_risk_score ∧
          (analyze zeroInput).overall_risk_score < 0.7 →
        (analyze zeroInput).risk_level = "medium") ∧
      ((analyze zeroInput).overall_risk_score < 0.4 → (analyze zeroInput).risk_level = "low") ∧
      ((analyze zeroInput).overall_risk_score = (analyze zeroInput).overall_risk_score →
        (analyze zeroInput).risk_level = (analyze zeroInput).risk_level) :=
  c3_risk_level_pure_of_score zeroInput zeroInput zeroParsed zeroParsed rfl rfl

/-! C4 -/

lemma ca_emptyParsed (r : ℚ) (hr : ¬ r < 30) :
    analyze_content_authenticity (emptyParsed r) CAErr.ok
      = { detected := true, risk_score := 0.1,
          issues := ["Missing basic contact information"] } := by
  have h1 : ¬ ((0 : ℚ) < 2 ∧ (0 : ℕ) > 20) := by norm_num
  have h4 : ¬ ((0 : ℚ) > 50) := by norm_num
  simp [analyze_content_authenticity, emptyParsed, h1, hr, h4]

/-- The full shape of the report on an all-empty document whose readability
score does not fall below 30 (textstat answers 206.835 on empty text). -/
lemma empty_document_report (r : ℚ) (hr : ¬ r < 30) :
    (analyzeSignals (emptyInput r) (emptyParsed r)).white_text = initSignal ∧
      (analyzeSignals (emptyInput r) (emptyParsed r)).keyword_stuffing = initSignal ∧
      (analyzeSignals (emptyInput r) (emptyParsed r)).invisible_characters = initSignal ∧
      (analyzeSignals (emptyInput r) (emptyParsed r)).suspicious_formatting = initSignal ∧
      (analyzeSignals (emptyInput r) (emptyParsed r)).pdf_stream_analysis = initSignal ∧
      (analyzeSignals (emptyInput r) (emptyParsed r)).content_authenticity
        = { detected := true, risk_score := 0.1,
            issues := ["Missing basic contact information"] } ∧
      (analyze (emptyInput r)).overall_risk_score = 1 / 60 ∧
      (analyze (emptyInput r)).risk_level = "low" := by
  have h1 : (analyzeSignals (emptyInput r) (emptyParsed r)).white_text = initSignal := rfl
  have h2 : (analyzeSignals (emptyInput r) (emptyParsed r)).keyword_stuffing = initSignal :=
    detect_keyword_stuffing_empty
  have h3 : (analyzeSignals (emptyInput r) (emptyParsed r)).invisible_characters
      = initSignal := rfl
  have h4 : (analyzeSignals (emptyInput r) (emptyParsed r)).suspicious_formatting
      = initSignal := rfl
  have h6 : (analyzeSignals (emptyInput r) (emptyParsed r)).pdf_stream_analysis
      = initSignal := rfl
  have h5 : (analyzeSignals (emptyInput r) (emptyParsed r)).content_authenticity
      = { detected := true, risk_score := 0.1,
          issues := ["Missing basic contact information"] } :=
    ca_emptyParsed r hr
  have hov : (analyze (emptyInput r)).overall_risk_score = 1 / 60 := by
    rw [analyze_overall_of_parsed (emptyInput r) (emptyParsed r) rfl]
    rw [h1, h2, h3, h4, h5, h6]
    norm_num [initSignal]
  refine ⟨h1, h2, h3, h4, h6, h5, hov, ?_⟩
  rw [analyze_level_of_parsed (emptyInput r) (emptyParsed r) rfl, hov]
  norm_num [risk_level_of]

/-- C4 counterexample: on the all-empty document (with the readability score
206.835 that textstat reports for empty text) the content-authenticity
signal is detected and the overall risk score is 1/60, not 0, because the
missing-contact condition fires on empty parsed fields. -/
theorem c4_counterexample :
    (analyzeSignals (emptyInput 206.835) (emptyParsed 206.835)).content_authenticity.detected
        = true ∧
      (analyze (emptyInput 206.835)).overall_risk_score = 1 / 60 ∧
      (1 / 60 : ℚ) ≠ 0 := by
  have h := empty_document_report 206.835 (by norm_num)
  refine ⟨?_, h.2.2.2.2.2.2.1, by norm_num⟩
  rw [h.2.2.2.2.2.1]

/-- C4 corrected: on a document with zero glyphs, empty text and empty
parsed fields (readability not below 30), the five structural signals are
undetected with score 0, but the content-authenticity signal is detected
with score 0.1 through the missing-contact red flag, the overall risk score
is 1/60 rather than 0, and the risk level is still low. -/
theorem c4_empty_document_analysis (r : ℚ) (hr : ¬ r < 30) :
    (analyzeSignals (emptyInput r) (emptyParsed r)).white_text = initSignal ∧
      (analyzeSignals (emptyInput r) (emptyParsed r)).keyword_stuffing = initSignal ∧
      (analyzeSignals (emptyInput r) (emptyParsed r)).invisible_characters = initSignal ∧
      (analyzeSignals (emptyInput r) (emptyParsed r)).suspicious_formatting = initSignal ∧
      (analyzeSignals (emptyInput r) (emptyParsed r)).pdf_stream_analysis = initSignal ∧
      (analyzeSignals (emptyInput r) (emptyParsed r)).content_authenticity
        = { detected := true, risk_score := 0.1,
            issues := ["Missing basic contact information"] } ∧
      (analyze (emptyInput r)).overall_risk_score = 1 / 60 ∧
      (analyze (emptyInput r)).risk_level = "low" :=
  empty_document_report r hr

theorem c4_empty_document_analysis_witness :
    (analyzeSignals (emptyInput 100) (emptyParsed 100)).white_text = initSignal ∧
      (analyzeSignals (emptyInput 100) (emptyParsed 100)).keyword_stuffing = initSignal ∧
      (analyzeSignals (emptyInput 100) (emptyParsed 100)).invisible_characters = initSignal ∧
      (analyzeSignals (emptyInput 100) (emptyParsed 100)).suspicious_formatting = initSignal ∧
      (analyzeSignals (emptyInput 100) (emptyParsed 100)).pdf_stream_analysis = initSignal ∧
      (analyzeSignals (emptyInput 100) (emptyParsed 100)).content_authenticity
        = { detected := true, risk_score := 0.1,
            issues := ["Missing basic contact information"] } ∧
      (analyze (emptyInput 100)).overall_risk_score = 1 / 60 ∧
      (analyze (emptyInput 100)).risk_level = "low" :=
  c4_empty_document_analysis 100 (by decide)

/-! C5 -/

/-- C5 counterexample: when the white-text detector fails, its issues list
in the report is empty - the failure description is not appended as an
evidence string (it is only logged) - and when the content-authenticity
detector fails at the contact_info lookup its contribution is 1/2, not 0;
the aggregation still runs the threshold mapping normally. -/
theorem c5_counterexample :
    (analyzeSignals { emptyInput 100 with whiteFile := FileInput.err }
          (emptyParsed 100)).white_text.issues = ([] : List String) ∧
      ([] : List String).length ≠ 1 ∧
      (analyzeSignals partialFailInput partialFailParsed).content_authenticity.risk_score
        = 1 / 2 ∧
      (1 / 2 : ℚ) ≠ 0 ∧
      (analyze { emptyInput 100 with whiteFile := FileInput.err }).risk_level
        = risk_level_of
            (analyze { emptyInput 100 with whiteFile := FileInput.err }).overall_risk_score := by
  have hca : (analyzeSignals partialFailInput partialFailParsed).content_authenticity
      = { detected := false, risk_score := 1 / 2, issues := [] } := ca_partialFail
  exact ⟨rfl, by decide, by rw [hca], by norm_num,
    analyze_level_of_parsed _ (emptyParsed 100) rfl⟩

/-- C5 corrected: a detector that raises at its first fallible operation
contributes exactly the initialised signal - risk score 0, detected false
and an empty issues list, so no failure description is appended to the
evidence - while the content-authenticity detector raising at the
contact_info lookup contributes its partially accumulated score with
detected false and an empty issues list; in every case the other five
detector results are unchanged and the aggregation still applies the
threshold mapping. -/
theorem c5_detector_failure_isolated (inp : AnalyzeInput) (pd : ParsedData)
    (h : inp.parsed = some pd) :
    analyzeSignals { inp with whiteFile := FileInput.err } pd
        = { analyzeSignals inp pd with white_text := initSignal } ∧
      analyzeSignals { inp with fmtFile := FileInput.err } pd
        = { analyzeSignals inp pd with suspicious_formatting := initSignal } ∧
      analyzeSignals { inp with streamFile := StreamInput.err } pd
        = { analyzeSignals inp pd with pdf_stream_analysis := initSignal } ∧
      analyzeSignals { inp with kwErr := true } pd
        = { analyzeSignals inp pd with keyword_stuffing := initSignal } ∧
      analyzeSignals { inp with invErr := true } pd
        = { analyzeSignals inp pd with invisible_characters := initSignal } ∧
      analyzeSignals { inp with caErr := CAErr.early } pd
        = { analyzeSignals inp pd with content_authenticity := initSignal } ∧
      analyzeSignals { inp with caErr := CAErr.atContact } pd
        = { analyzeSignals inp pd with
            content_authenticity :=
              { detected := false,
                risk_score :=
                  (if pd.experienceYears < 2 ∧ pd.skillCount > 20 then (0.3 : ℚ) else 0)
                    + (if pd.readability < 30 then (0.2 : ℚ) else 0),
                issues := [] } } ∧
      initSignal.detected = false ∧ initSignal.risk_score = 0 ∧
      initSignal.issues = ([] : List String) ∧
      (analyze { inp with whiteFile := FileInput.err }).risk_level
        = risk_level_of (analyze { inp with whiteFile := FileInput.err }).overall_risk_score :=
  ⟨rfl, rfl, rfl, rfl, rfl, rfl, rfl, rfl, rfl, rfl,
    analyze_level_of_parsed _ pd h⟩

theorem c5_detector_failure_isolated_witness :
    analyzeSignals { emptyInput 100 with whiteFile := FileInput.err } (emptyParsed 100)
        = { analyzeSignals (emptyInput 100) (emptyParsed 100) with white_text := initSignal } ∧
      analyzeSignals { emptyInput 100 with fmtFile := FileInput.err } (emptyParsed 100)
        = { analyzeSignals (emptyInput 100) (emptyParsed 100) with
              suspicious_formatting := initSignal } ∧
      analyzeSignals { emptyInput 100 with streamFile := StreamInput.err } (emptyParsed 100)
        = { analyzeSignals (emptyInput 100) (emptyParsed 100) with
              pdf_stream_analysis := initSignal } ∧
      analyzeSignals { emptyInput 100 with kwErr := true } (emptyParsed 100)
        = { analyzeSignals (emptyInput 100) (emptyParsed 100) with
              keyword_stuffing := initSignal } ∧
      analyzeSignals { emptyInput 100 with invErr := true } (emptyParsed 100)
        = { analyzeSignals (emptyInput 100) (emptyParsed 100) with
              invisible_characters := initSignal } ∧
      analyzeSignals { emptyInput 100 with caErr := CAErr.early } (emptyParsed 100)
        = { analyzeSignals (emptyInput 100) (emptyParsed 100) with
              content_authenticity := initSignal } ∧
      analyzeSignals { emptyInput 100 with caErr := CAErr.atContact } (emptyParsed 100)
        = { analyzeSignals (emptyInput 100) (emptyParsed 100) with
            content_authenticity :=
              { detected := false,
                risk_score :=
                  (if (emptyParsed 100).experienceYears < 2 ∧
                      (emptyParsed 100).skillCount > 20 then (0.3 : ℚ) else 0)
                    + (if (emptyParsed 100).readability < 30 then (0.2 : ℚ) else 0),
                issues := [] } } ∧
      initSignal.detected = false ∧ initSignal.risk_score = 0 ∧
      initSignal.issues = ([] : List String) ∧
      (analyze { emptyInput 100 with whiteFile := FileInput.err }).risk_level
        = risk_level_of
            (analyze { emptyInput 100 with whiteFile := FileInput.err }).overall_risk_score :=
  c5_detector_failure_isolated (emptyInput 100) (emptyParsed 100) rfl

/-! C6 -/

/-- C6 counterexample: when the parsed data lookup raises, analyze itself
returns the fallback report whose risk level is the string unknown, outside
the three-value enumeration. -/
theorem c6_counterexample :
    (analyze noParsedInput).risk_level = "unknown" ∧
      (analyze noParsedInput).risk_level ≠ "low" ∧
      (analyze noParsedInput).risk_level ≠ "medium" ∧
      (analyze noParsedInput).risk_level ≠ "high" := by
  refine ⟨rfl, ?_, ?_, ?_⟩ <;> decide

/-- C6 amended: the threshold mapping is total and only ever produces the
three enumeration values, and every analysis that returns normally carries
one of them; only the top-level exception fallback escapes the enumeration
with the value unknown. -/
theorem c6_risk_level_enumeration (inp : AnalyzeInput) (pd : ParsedData)
    (h : inp.parsed = some pd) :
    ((analyze inp).risk_level = "high" ∨ (analyze inp).risk_level = "medium" ∨
        (analyze inp).risk_level = "low") ∧
      ∀ q : ℚ, risk_level_of q = "high" ∨ risk_level_of q = "medium" ∨
        risk_level_of q = "low" := by
  have hq : ∀ q : ℚ, risk_level_of q = "high" ∨ risk_level_of q = "medium" ∨
      risk_level_of q = "low" := by
    intro q
    unfold risk_level_of
    split_ifs <;> simp
  refine ⟨?_, hq⟩
  rw [analyze_level_of_parsed inp pd h]
  exact hq _

theorem c6_risk_level_enumeration_witness :
    ((analyze zeroInput).risk_level = "high" ∨ (analyze zeroInput).risk_level = "medium" ∨
        (analyze zeroInput).risk_level = "low") ∧
      ∀ q : ℚ, risk_level_of q = "high" ∨ risk_level_of q = "medium" ∨
        risk_level_of q = "low" :=
  c6_risk_level_enumeration zeroInput zeroParsed rfl

/-! C8 -/

lemma foldl_issues (l : List Signal) (acc : List String) :
    l.foldl (fun a s => if s.detected then a ++ s.issues else a) acc
      = acc ++ compileIssues l := by
  induction l generalizing acc with
  | nil => simp [compileIssues]
  | cons s t ih =>
    simp only [compileIssues, List.foldl_cons]
    rw [ih, ih]
    cases hs : s.detected <;> simp [hs, compileIssues]

lemma compileIssues_cons (s : Signal) (t : List Signal) :
    compileIssues (s :: t) = (if s.detected then s.issues else []) ++ compileIssues t := by
  unfold compileIssues
  simp only [List.foldl_cons]
  rw [foldl_issues]
  cases hs : s.detected <;> simp [hs, compileIssues]

lemma compileIssues_nil : compileIssues [] = [] := rfl

/-- C8 counterexample: the fallback report is a returned report, but its
detected_issues is the single string Analysis failed while it carries no
signals at all, so no concatenation of detected-signal issue lists can
produce it and the length identity fails (1 against an empty sum). -/
theorem c8_counterexample :
    (analyze noParsedInput).detailed_analysis = none ∧
      (analyze noParsedInput).detected_issues = ["Analysis failed"] ∧
      (analyze noParsedInput).detected_issues.length = 1 ∧ (1 : ℕ) ≠ 0 := by
  refine ⟨rfl, rfl, rfl, by decide⟩

/-- C8 corrected: for every normally returned report (one carrying the
six-signal map), detected_issues is exactly the concatenation of the issue
lists of the detected signals in the fixed declaration order, and its
length is the sum of those issue-list lengths; the exception fallback
report instead carries the single string Analysis failed with no signal
map. -/
theorem c8_detected_issues_concatenation (inp : AnalyzeInput) (pd : ParsedData)
    (h : inp.parsed = some pd) :
    (analyze inp).detected_issues
        = (if (analyzeSignals inp pd).white_text.detected
              then (analyzeSignals inp pd).white_text.issues else [])
          ++ (if (analyzeSignals inp pd).keyword_stuffing.detected
              then (analyzeSignals inp pd).keyword_stuffing.issues else [])
          ++ (if (analyzeSignals inp pd).invisible_characters.detected
              then (analyzeSignals inp pd).invisible_characters.issues else [])
          ++ (if (analyzeSignals inp pd).suspicious_formatting.detected
              then (analyzeSignals inp pd).suspicious_formatting.issues else [])
          ++ (if (analyzeSignals inp pd).content_authenticity.detected
              then (analyzeSignals inp pd).content_authenticity.issues else [])
          ++ (if (analyzeSignals inp pd).pdf_stream_analysis.detected
              then (analyzeSignals inp pd).pdf_stream_analysis.issues else []) ∧
      (analyze inp).detected_issues.length
        = (if (analyzeSignals inp pd).white_text.detected
              then (analyzeSignals inp pd).white_text.issues.length else 0)
          + (if (analyzeSignals inp pd).keyword_stuffing.detected
              then (analyzeSignals inp pd).keyword_stuffing.issues.length else 0)
          + (if (analyzeSignals inp pd).invisible_characters.detected
              then (analyzeSignals inp pd).invisible_characters.issues.length else 0)
          + (if (analyzeSignals inp pd).suspicious_formatting.detected
              then (analyzeSignals inp pd).suspicious_formatting.issues.length else 0)
          + (if (analyzeSignals inp pd).content_authenticity.detected
              then (analyzeSignals inp pd).content_authenticity.issues.length else 0)
          + (if (analyzeSignals inp pd).pdf_stream_analysis.detected
              then (analyzeSignals inp pd).pdf_stream_analysis.issues.length else 0) := by
  have heq : (analyze inp).detected_issues
      = (if (analyzeSignals inp pd).white_text.detected
            then (analyzeSignals inp pd).white_text.issues else [])
        ++ (if (analyzeSignals inp pd).keyword_stuffing.detected
            then (analyzeSignals inp pd).keyword_stuffing.issues else [])
        ++ (if (analyzeSignals inp pd).invisible_characters.detected
            then (analyzeSignals inp pd).invisible_characters.issues else [])
        ++ (if (analyzeSignals inp pd).suspicious_formatting.detected
            then (analyzeSignals inp pd).suspicious_formatting.issues else [])
        ++ (if (analyzeSignals inp pd).content_authenticity.detected
            then (analyzeSignals inp pd).content_authenticity.issues else [])
        ++ (if (analyzeSignals inp pd).pdf_stream_analysis.detected
            then (analyzeSignals inp pd).pdf_stream_analysis.issues else []) := by
    rw [analyze_issues_of_parsed inp pd h]
    simp only [Signals.toList]
    rw [compileIssues_cons, compileIssues_cons, compileIssues_cons, compileIssues_cons,
      compileIssues_cons, compileIssues_cons, compileIssues_nil]
    simp [List.append_assoc]
  refine ⟨heq, ?_⟩
  rw [heq]
  simp only [List.length_append, apply_ite List.length, List.length_nil]

theorem c8_detected_issues_concatenation_witness :
    (analyze (emptyInput 100)).detected_issues
        = (if (analyzeSignals (emptyInput 100) (emptyParsed 100)).white_text.detected
              then (analyzeSignals (emptyInput 100) (emptyParsed 100)).white_text.issues else [])
          ++ (if (analyzeSignals (emptyInput 100) (emptyParsed 100)).keyword_stuffing.detected
              then (analyzeSignals (emptyInput 100) (emptyParsed 100)).keyword_stuffing.issues
              else [])
          ++ (if (analyzeSignals (emptyInput 100) (emptyParsed 100)).invisible_characters.detected
              then (analyzeSignals (emptyInput 100) (emptyParsed 100)).invisible_characters.issues
              else [])
          ++ (if (analyzeSignals (emptyInput 100) (emptyParsed 100)).suspicious_formatting.detected
              then (analyzeSignals (emptyInput 100) (emptyParsed 100)).suspicious_formatting.issues
              else [])
          ++ (if (analyzeSignals (emptyInput 100) (emptyParsed 100)).content_authenticity.detected
              then (analyzeSignals (emptyInput 100) (emptyParsed 100)).content_authenticity.issues
              else [])
          ++ (if (analyzeSignals (emptyInput 100) (emptyParsed 100)).pdf_stream_analysis.detected
              then (analyzeSignals (emptyInput 100) (emptyParsed 100)).pdf_stream_analysis.issues
              else []) ∧
      (analyze (emptyInput 100)).detected_issues.length
        = (if (analyzeSignals (emptyInput 100) (emptyParsed 100)).white_text.detected
              then (analyzeSignals (emptyInput 100) (emptyParsed 100)).white_text.issues.length
              else 0)
          + (if (analyzeSignals (emptyInput 100) (emptyParsed 100)).keyword_stuffing.detected
              then
                (analyzeSignals (emptyInput 100) (emptyParsed 100)).keyword_stuffing.issues.length
              else 0)
          + (if (analyzeSignals (emptyInput 100) (emptyParsed 100)).invisible_characters.detected
              then
                (analyzeSignals (emptyInput 100)
                  (emptyParsed 100)).invisible_characters.issues.length
              else 0)
          + (if (analyzeSignals (emptyInput 100) (emptyParsed 100)).suspicious_formatting.detected
              then
                (analyzeSignals (emptyInput 100)
                  (emptyParsed 100)).suspicious_formatting.issues.length
              else 0)
          + (if (analyzeSignals (emptyInput 100) (emptyParsed 100)).content_authenticity.detected
              then
                (analyzeSignals (emptyInput 100)
                  (emptyParsed 100)).content_authenticity.issues.length
              else 0)
          + (if (analyzeSignals (emptyInput 100) (emptyParsed 100)).pdf_stream_analysis.detected
              then
                (analyzeSignals (emptyInput 100)
                  (emptyParsed 100)).pdf_stream_analysis.issues.length
              else 0) :=
  c8_detected_issues_concatenation (emptyInput 100) (emptyParsed 100) rfl

/-! C9 -/

/-- C9: a page content stream with six white-fill color commands scores the
whole group as exactly one hit, so the stream signal is detected with risk
score at least 0.2; in general the stream risk score is min of hit count
times 0.2 and 1, and the signal is detected exactly when the hit count is
positive. -/
theorem c9_content_stream_hits :
    (analyze_pdf_content_streams (StreamInput.pdfDoc
          [{ tokens := List.replicate 6 CSToken.whiteFill }])).detected = true ∧
      (analyze_pdf_content_streams (StreamInput.pdfDoc
          [{ tokens := List.replicate 6 CSToken.whiteFill }])).risk_score ≥ 0.2 ∧
      totalStreamHits [{ tokens := List.replicate 6 CSToken.whiteFill }] = 1 ∧
      ∀ pages : List StreamPage,
        (analyze_pdf_content_streams (StreamInput.pdfDoc pages)).risk_score
            = min ((totalStreamHits pages : ℚ) * 0.2) 1 ∧
          ((analyze_pdf_content_streams (StreamInput.pdfDoc pages)).detected = true
            ↔ totalStreamHits pages > 0) := by
  have hgen : ∀ pages : List StreamPage,
      (analyze_pdf_content_streams (StreamInput.pdfDoc pages)).risk_score
          = min ((totalStreamHits pages : ℚ) * 0.2) 1 ∧
        ((analyze_pdf_content_streams (StreamInput.pdfDoc pages)).detected = true
          ↔ totalStreamHits pages > 0) := by
    intro pages
    simp only [analyze_pdf_content_streams]
    rcases Nat.eq_zero_or_pos (totalStreamHits pages) with h0 | hp
    · rw [h0]
      norm_num [initSignal]
    · rw [if_pos hp]
      exact ⟨rfl, by simp [hp]⟩
  have hhits : totalStreamHits [{ tokens := List.replicate 6 CSToken.whiteFill }] = 1 := by
    decide
  refine ⟨?_, ?_, hhits, hgen⟩
  · rw [(hgen _).2, hhits]
    norm_num
  · rw [(hgen _).1, hhits]
    norm_num

/-! C7 -/

/-- The tiny-text ratio as claim C7 words it: the tiny characters of every
page of the document over the total character count. -/
def specTinyRatio (d : PdfDoc) : ℚ :=
  (((d.pages.map (fun p =>
        p.chars.countP (fun c => decide (c.size.getD 12 < 3)))).sum : ℕ) : ℚ)
    / (totalElements d : ℚ)

/-- The white-text risk score as claim C7 words it: an unguarded max of the
two capped ratio terms, with the tiny ratio taken over the whole document. -/
def specWhiteTextRisk (d : PdfDoc) : ℚ :=
  max (min (white_text_ratio d * 3) 1) (min (specTinyRatio d * 2) 1)

/-- The white-text detection test as claim C7 words it. -/
def specWhiteTextDetected (d : PdfDoc) : Prop :=
  white_text_ratio d > 0.05 ∨ specTinyRatio d > 0.1

/-- A glyph with a pure white fill color. -/
def lightGlyph : Glyph := { plainGlyph with color := some (PyVal.str "#ffffff") }

/-- A glyph sized between the tiny-font threshold 2 and the tiny-text
threshold 3. -/
def smallGlyph : Glyph := { plainGlyph with size := some 2 }

/-- Twenty glyphs on one page, one of them white. -/
def thresholdPage : Page :=
  { chars := lightGlyph :: List.replicate 19 plainGlyph, bbox2 := 612, bbox3 := 792 }

/-- The one-page document whose suspicious ratio is exactly 1/20: on the
detection threshold but not above it. -/
def thresholdDoc : PdfDoc := { pages := [thresholdPage] }

/-- One page holding only the small glyph. -/
def smallPage : Page := { chars := [smallGlyph], bbox2 := 612, bbox3 := 792 }

/-- One page holding only the plain glyph. -/
def plainPage : Page := { chars := [plainGlyph], bbox2 := 612, bbox3 := 792 }

/-- Two pages of one glyph each; only the first page glyph is tiny, and the
tiny-text count of the source reads the characters of the last page only. -/
def twoPageDoc : PdfDoc := { pages := [smallPage, plainPage] }

lemma is_light_color_white : is_light_color (PyVal.str "#ffffff") = true := by
  have hp : parseColor (PyVal.str "#ffffff") = some (255, 255, 255) := rfl
  simp only [is_light_color, hp]
  rw [decide_eq_true_eq]
  norm_num

lemma lightHit_light : lightHit lightGlyph = true := by
  show is_light_color (PyVal.str "#ffffff") = true
  exact is_light_color_white

lemma charHits_plain : charHits plainGlyph = 0 := by decide

lemma charHits_small : charHits smallGlyph = 0 := by decide

lemma charHits_light : charHits lightGlyph = 1 := by
  simp only [charHits, lightHit_light]
  rw [show tinyFontHit lightGlyph = false from by decide]
  simp

lemma offPageHit_false (p : Page) (c : Glyph) (hx : c.x0 = 0) (hy : c.y0 = 0)
    (h2 : 0 ≤ p.bbox2) (h3 : 0 ≤ p.bbox3) : offPageHit p c = false := by
  have k1 : ¬ (c.x0 < 0) := by rw [hx]; norm_num
  have k2 : ¬ (c.y0 < 0) := by rw [hy]; norm_num
  have k3 : ¬ (c.x0 > p.bbox2 + 50) := by rw [hx]; push_neg; linarith
  have k4 : ¬ (c.y0 > p.bbox3 + 50) := by rw [hy]; push_neg; linarith
  simp [offPageHit, k1, k2, k3, k4]

lemma overlapHit_same_text (a b : Glyph) (h : a.text = b.text) :
    overlapHit a b = false := by
  have hne : (a.text ≠ b.text) = False := by simp [h]
  simp [overlapHit, hne]

lemma overlapPairs_same_text (l : List Glyph) (h : ∀ a ∈ l, a.text = "a") :
    overlapPairs l = 0 := by
  induction l with
  | nil => rfl
  | cons c t ih =>
    simp only [overlapPairs]
    rw [ih (fun a ha => h a (List.mem_cons_of_mem c ha))]
    rw [List.countP_eq_zero.mpr]
    · intro b hb
      rw [overlapHit_same_text c b]
      · simp
      · rw [h c (List.mem_cons_self c t), h b (List.mem_cons_of_mem c hb)]

lemma mem_threshold_chars (a : Glyph) (ha : a ∈ thresholdPage.chars) :
    a = lightGlyph ∨ a = plainGlyph := by
  rcases List.mem_cons.mp ha with h | h
  · exact Or.inl h
  · exact Or.inr (List.eq_of_mem_replicate h)

lemma pageSuspicious_threshold : pageSuspicious thresholdPage = 1 := by
  unfold pageSuspicious
  have h1 : (thresholdPage.chars.map charHits).sum = 1 := by
    show ((lightGlyph :: List.replicate 19 plainGlyph).map charHits).sum = 1
    rw [List.map_cons, List.map_replicate, charHits_light, charHits_plain]
    simp
  have h2 : thresholdPage.chars.countP (offPageHit thresholdPage) = 0 := by
    rw [List.countP_eq_zero]
    intro a ha
    rcases mem_threshold_chars a ha with rfl | rfl
    · simp [offPageHit_false thresholdPage lightGlyph rfl rfl
        (by norm_num [thresholdPage]) (by norm_num [thresholdPage])]
    · simp [offPageHit_false thresholdPage plainGlyph rfl rfl
        (by norm_num [thresholdPage]) (by norm_num [thresholdPage])]
  have h3 : overlapPairs thresholdPage.chars = 0 := by
    apply overlapPairs_same_text
    intro a ha
    rcases mem_threshold_chars a ha with rfl | rfl <;> rfl
  have h4 : thresholdPage.chars.countP bgCollisionHit = 0 := by
    rw [List.countP_eq_zero]
    intro a ha
    rcases mem_threshold_chars a ha with rfl | rfl <;> simp [bgCollisionHit, lightGlyph,
      plainGlyph]
  rw [h1, h2, h3, h4]
  simp

lemma suspicious_thresholdDoc : suspiciousElements thresholdDoc = 1 := by
  show (List.map pageSuspicious [thresholdPage]).sum = 1
  rw [List.map_cons, List.map_nil, pageSuspicious_threshold]
  simp

lemma ratio_thresholdDoc : white_text_ratio thresholdDoc = 1 / 20 := by
  unfold white_text_ratio
  rw [suspicious_thresholdDoc, show totalElements thresholdDoc = 20 from by decide]
  norm_num

lemma tiny_ratio_thresholdDoc : tiny_text_ratio thresholdDoc = 0 := by
  unfold tiny_text_ratio
  rw [if_pos (by decide : totalElements thresholdDoc > 0)]
  rw [show tinyTextCount thresholdDoc = 0 from by decide]
  norm_num

lemma detect_thresholdDoc :
    (detect_white_text (FileInput.pdfDoc thresholdDoc)).risk_score = 0 := by
  rw [detect_white_text_risk_closed thresholdDoc (by decide)]
  rw [if_neg (by rw [ratio_thresholdDoc]; norm_num),
    if_neg (by rw [tiny_ratio_thresholdDoc]; norm_num)]
  exact max_self 0

lemma spec_thresholdDoc : specWhiteTextRisk thresholdDoc = 3 / 20 := by
  unfold specWhiteTextRisk specTinyRatio
  rw [ratio_thresholdDoc]
  rw [show ((thresholdDoc.pages.map (fun p =>
      p.chars.countP (fun c => decide (c.size.getD 12 < 3)))).sum) = 0 from by decide]
  rw [show totalElements thresholdDoc = 20 from by decide]
  rw [show min ((1 / 20 : ℚ) * 3) 1 = 3 / 20 from by rw [min_eq_left (by norm_num)]; norm_num]
  norm_num

lemma pageSuspicious_small : pageSuspicious smallPage = 0 := by
  unfold pageSuspicious
  have h1 : (smallPage.chars.map charHits).sum = 0 := by
    show ([smallGlyph].map charHits).sum = 0
    rw [List.map_cons, List.map_nil, charHits_small]
    simp
  have h2 : smallPage.chars.countP (offPageHit smallPage) = 0 := by
    rw [List.countP_eq_zero]
    intro a ha
    rw [List.mem_singleton.mp ha]
    simp [offPageHit_false smallPage smallGlyph rfl rfl
      (by norm_num [smallPage]) (by norm_num [smallPage])]
  have h3 : overlapPairs smallPage.chars = 0 := rfl
  have h4 : smallPage.chars.countP bgCollisionHit = 0 := by decide
  rw [h1, h2, h3, h4]
  simp

lemma pageSuspicious_plain : pageSuspicious plainPage = 0 := by
  unfold pageSuspicious
  have h1 : (plainPage.chars.map charHits).sum = 0 := by
    show ([plainGlyph].map charHits).sum = 0
    rw [List.map_cons, List.map_nil, charHits_plain]
    simp
  have h2 : plainPage.chars.countP (offPageHit plainPage) = 0 := by
    rw [List.countP_eq_zero]
    intro a ha
    rw [List.mem_singleton.mp ha]
    simp [offPageHit_false plainPage plainGlyph rfl rfl
      (by norm_num [plainPage]) (by norm_num [plainPage])]
  have h3 : overlapPairs plainPage.chars = 0 := rfl
  have h4 : plainPage.chars.countP bgCollisionHit = 0 := by decide
  rw [h1, h2, h3, h4]
  simp

lemma suspicious_twoPageDoc : suspiciousElements twoPageDoc = 0 := by
  show (List.map pageSuspicious [smallPage, plainPage]).sum = 0
  rw [List.map_cons, List.map_cons, List.map_nil, pageSuspicious_small, pageSuspicious_plain]
  simp

lemma ratio_twoPageDoc : white_text_ratio twoPageDoc = 0 := by
  unfold white_text_ratio
  rw [suspicious_twoPageDoc]
  norm_num

lemma tiny_ratio_twoPageDoc : tiny_text_ratio twoPageDoc = 0 := by
  unfold tiny_text_ratio
  rw [if_pos (by decide : totalElements twoPageDoc > 0)]
  rw [show tinyTextCount twoPageDoc = 0 from by decide]
  norm_num

lemma detect_twoPageDoc :
    (detect_white_text (FileInput.pdfDoc twoPageDoc)).risk_score = 0 ∧
      (detect_white_text (FileInput.pdfDoc twoPageDoc)).detected = false := by
  constructor
  · rw [detect_white_text_risk_closed twoPageDoc (by decide)]
    rw [if_neg (by rw [ratio_twoPageDoc]; norm_num),
      if_neg (by rw [tiny_ratio_twoPageDoc]; norm_num)]
    exact max_self 0
  · rw [detect_white_text_detected_closed twoPageDoc (by decide)]
    rw [decide_eq_false (by rw [ratio_twoPageDoc]; norm_num),
      decide_eq_false (by rw [tiny_ratio_twoPageDoc]; norm_num)]
    rfl

lemma specTiny_twoPageDoc : specTinyRatio twoPageDoc = 1 / 2 := by
  unfold specTinyRatio
  rw [show ((twoPageDoc.pages.map (fun p =>
      p.chars.countP (fun c => decide (c.size.getD 12 < 3)))).sum) = 1 from by decide]
  rw [show totalElements twoPageDoc = 2 from by decide]
  norm_num

lemma spec_twoPageDoc : specWhiteTextRisk twoPageDoc = 1 := by
  unfold specWhiteTextRisk
  rw [ratio_twoPageDoc, specTiny_twoPageDoc]
  rw [show min ((0 : ℚ) * 3) 1 = 0 from by norm_num]
  rw [show min ((1 / 2 : ℚ) * 2) 1 = 1 from by norm_num]
  exact max_eq_right zero_le_one

/-- C7 counterexample: on a one-page document with suspicious ratio exactly
1/20 the code scores 0 while the formula of the claim gives 3/20, and on a
two-page document whose only tiny glyph sits on the first page the code is
undetected with score 0 while the formula of the claim (tiny ratio over the
whole document) gives score 1 and detection. -/
theorem c7_counterexample :
    (detect_white_text (FileInput.pdfDoc thresholdDoc)).risk_score = 0 ∧
      specWhiteTextRisk thresholdDoc = 3 / 20 ∧ (0 : ℚ) ≠ 3 / 20 ∧
      (detect_white_text (FileInput.pdfDoc twoPageDoc)).detected = false ∧
      specWhiteTextDetected twoPageDoc ∧
      (detect_white_text (FileInput.pdfDoc twoPageDoc)).risk_score = 0 ∧
      specWhiteTextRisk twoPageDoc = 1 ∧ (0 : ℚ) ≠ 1 := by
  refine ⟨detect_thresholdDoc, spec_thresholdDoc, by norm_num, (detect_twoPageDoc).2, ?_,
    (detect_twoPageDoc).1, spec_twoPageDoc, by norm_num⟩
  unfold specWhiteTextDetected
  rw [specTiny_twoPageDoc]
  right
  norm_num

/-- C7 corrected: for a PDF document with at least one glyph, the risk score
is the max of the two ratio terms with each term guarded by its own
threshold (the white ratio term only counts above 0.05, the tiny term only
above 0.1), detection is the disjunction of the two threshold tests, and
the tiny-text ratio divides the tiny-character count of the last page by
the glyph count of the whole document. -/
theorem c7_white_text_formula (d : PdfDoc) (h : 0 < totalElements d) :
    (detect_white_text (FileInput.pdfDoc d)).risk_score
        = max (if white_text_ratio d > 0.05 then min (white_text_ratio d * 3) 1 else 0)
              (if tiny_text_ratio d > 0.1 then min (tiny_text_ratio d * 2) 1 else 0) ∧
      (detect_white_text (FileInput.pdfDoc d)).detected
        = (decide (white_text_ratio d > 0.05) || decide (tiny_text_ratio d > 0.1)) ∧
      tiny_text_ratio d = (tinyTextCount d : ℚ) / (totalElements d : ℚ) ∧
      white_text_ratio d = (suspiciousElements d : ℚ) / (totalElements d : ℚ) :=
  ⟨detect_white_text_risk_closed d h, detect_white_text_detected_closed d h,
    by unfold tiny_text_ratio; rw [if_pos h], rfl⟩

theorem c7_white_text_formula_witness :
    (detect_white_text (FileInput.pdfDoc thresholdDoc)).risk_score
        = max (if white_text_ratio thresholdDoc > 0.05
              then min (white_text_ratio thresholdDoc * 3) 1 else 0)
              (if tiny_text_ratio thresholdDoc > 0.1
              then min (tiny_text_ratio thresholdDoc * 2) 1 else 0) ∧
      (detect_white_text (FileInput.pdfDoc thresholdDoc)).detected
        = (decide (white_text_ratio thresholdDoc > 0.05)
            || decide (tiny_text_ratio thresholdDoc > 0.1)) ∧
      tiny_text_ratio thresholdDoc
        = (tinyTextCount thresholdDoc : ℚ) / (totalElements thresholdDoc : ℚ) ∧
      white_text_ratio thresholdDoc
        = (suspiciousElements thresholdDoc : ℚ) / (totalElements thresholdDoc : ℚ) :=
  c7_white_text_formula thresholdDoc (by decide)

/-! C10 -/

/-- A glyph whose color key is absent but whose background color is black:
the collision check then compares the default #000000 against it. -/
def noColorGlyph : Glyph := { plainGlyph with bgcolor := some (PyVal.str "#000000") }

/-- A glyph whose color value is a three-digit hex form. -/
def badColorGlyph : Glyph := { plainGlyph with color := some (PyVal.str "#fff") }

/-- One page holding only the glyph without a color key. -/
def noColorPage : Page := { chars := [noColorGlyph], bbox2 := 612, bbox3 := 792 }

lemma colors_too_similar_black :
    colors_too_similar (PyVal.str "#000000") (PyVal.str "#000000") = true := by
  have hp : parseColor (PyVal.str "#000000") = some (0, 0, 0) := rfl
  simp only [colors_too_similar, hp]
  rw [decide_eq_true_eq]
  norm_num

lemma bgCollisionHit_noColor : bgCollisionHit noColorGlyph = true := by
  show colors_too_similar (PyVal.str "#000000") (PyVal.str "#000000") = true
  exact colors_too_similar_black

/-- C10 counterexample: a glyph with no color key at all still increments
the suspicious count, because the collision check compares its background
color against the default black text color and fires. -/
theorem c10_counterexample :
    noColorGlyph.color = none ∧ bgCollisionHit noColorGlyph = true ∧
      pageSuspicious noColorPage = 1 := by
  refine ⟨rfl, bgCollisionHit_noColor, ?_⟩
  unfold pageSuspicious
  have h1 : (noColorPage.chars.map charHits).sum = 0 := by decide
  have h2 : noColorPage.chars.countP (offPageHit noColorPage) = 0 := by
    rw [List.countP_eq_zero]
    intro a ha
    rw [List.mem_singleton.mp ha]
    simp [offPageHit_false noColorPage noColorGlyph rfl rfl
      (by norm_num [noColorPage]) (by norm_num [noColorPage])]
  have h3 : overlapPairs noColorPage.chars = 0 := rfl
  have h4 : noColorPage.chars.countP bgCollisionHit = 1 := by
    show List.countP bgCollisionHit [noColorGlyph] = 1
    rw [List.countP_cons, List.countP_nil, bgCollisionHit_noColor]
    rfl
  rw [h1, h2, h3, h4]
  simp

/-- A character not in the dropWhile prefix survives the drop. -/
lemma mem_dropWhile_of_not {p : Char → Bool} {l : List Char} {c : Char}
    (hc : c ∈ l) (hp : p c = false) : c ∈ l.dropWhile p := by
  induction l with
  | nil => cases hc
  | cons d t ih =>
    rw [List.dropWhile_cons]
    rcases List.mem_cons.mp hc with rfl | hmem
    · rw [if_neg (by simp [hp])]
      exact List.mem_cons_self c t
    · by_cases hd : p d = true
      · rw [if_pos hd]
        exact ih hmem
      · rw [if_neg hd]
        exact List.mem_cons_of_mem d hmem

/-- One non-digit anywhere makes the digit evaluation fail. -/
lemma hexDigitsAux_none (l : List Char) (c : Char) (hv : hexVal c = none) :
    c ∈ l → ∀ acc : ℕ, hexDigitsAux l acc = none := by
  induction l with
  | nil =>
    intro hc
    cases hc
  | cons d t ih =>
    intro hc acc
    rcases List.mem_cons.mp hc with rfl | hmem
    · simp only [hexDigitsAux, hv]
    · cases hd : hexVal d with
      | none => simp only [hexDigitsAux, hd]
      | some v =>
        simp only [hexDigitsAux, hd]
        exact ih hmem _

/-- A character int(x, 16) can never consume makes the whole call fail: it
is not whitespace, so it survives both strips; it is not a sign, so it is
read as a digit; and it is not a digit. -/
lemma pyIntHex_none_of_bad (s : String) (c : Char) (hc : c ∈ s.data)
    (hbad : pyIntPossible c = false) : pyIntHex s = none := by
  have hhex : hexVal c = none := by
    cases hv : hexVal c with
    | none => rfl
    | some v => simp [pyIntPossible, hv] at hbad
  have hsp : isPySpace c = false := by
    cases hs : isPySpace c with
    | false => rfl
    | true => simp [pyIntPossible, hs] at hbad
  have hplus : ¬ (c = '+') := by
    intro hcp
    subst hcp
    simp [pyIntPossible] at hbad
  have hminus : ¬ (c = '-') := by
    intro hcm
    subst hcm
    simp [pyIntPossible] at hbad
  have hm1 : c ∈ s.data.dropWhile isPySpace := mem_dropWhile_of_not hc hsp
  have hm2 : c ∈ ((s.data.dropWhile isPySpace).reverse.dropWhile isPySpace).reverse := by
    rw [List.mem_reverse]
    exact mem_dropWhile_of_not (List.mem_reverse.mpr hm1) hsp
  simp only [pyIntHex]
  cases hT : ((s.data.dropWhile isPySpace).reverse.dropWhile isPySpace).reverse with
  | nil =>
    simp [hT] at hm2
  | cons hd tl =>
    rw [hT] at hm2
    dsimp only
    rcases List.mem_cons.mp hm2 with rfl | hmemtl
    · rw [if_neg hplus, if_neg hminus,
        hexDigitsAux_none (c :: tl) c hhex (List.mem_cons_self c tl) 0]
      rfl
    · by_cases hp : hd = '+'
      · rw [if_pos hp]
        cases tl with
        | nil => cases hmemtl
        | cons a b =>
          dsimp only
          rw [hexDigitsAux_none (a :: b) c hhex hmemtl 0]
          rfl
      · by_cases hm : hd = '-'
        · rw [if_neg hp, if_pos hm]
          cases tl with
          | nil => cases hmemtl
          | cons a b =>
            dsimp only
            rw [hexDigitsAux_none (a :: b) c hhex hmemtl 0]
            rfl
        · rw [if_neg hp, if_neg hm,
            hexDigitsAux_none (hd :: tl) c hhex (List.mem_cons_of_mem hd hmemtl) 0]
          rfl

/-- A definitely unparsable color parses to none also in the embedding. -/
lemma parseColor_none_of_definitely (v : PyVal)
    (h : definitelyUnparsableColor v = true) : parseColor v = none := by
  cases v with
  | nonStr => rfl
  | str s =>
    simp only [definitelyUnparsableColor, Bool.or_eq_true] at h
    simp only [parseColor]
    by_cases hl : (s.data.dropWhile (fun c => c = '#')).length = 6
    · rw [if_pos hl]
      rcases h with ((hlen | h1) | h2) | h3
      · rw [decide_eq_true_eq] at hlen
        exact absurd hl hlen
      · obtain ⟨c, hcm, hcb⟩ := List.any_eq_true.mp h1
        rw [Bool.not_eq_true'] at hcb
        rw [pyIntHex_none_of_bad
          (List.asString ((s.data.dropWhile (fun c => c = '#')).take 2)) c hcm hcb]
      · obtain ⟨c, hcm, hcb⟩ := List.any_eq_true.mp h2
        rw [Bool.not_eq_true'] at hcb
        rw [pyIntHex_none_of_bad
          (List.asString (((s.data.dropWhile (fun c => c = '#')).drop 2).take 2)) c hcm hcb]
        cases pyIntHex (List.asString ((s.data.dropWhile (fun c => c = '#')).take 2)) <;>
          cases pyIntHex (List.asString
            (((s.data.dropWhile (fun c => c = '#')).drop 4).take 2)) <;> rfl
      · obtain ⟨c, hcm, hcb⟩ := List.any_eq_true.mp h3
        rw [Bool.not_eq_true'] at hcb
        rw [pyIntHex_none_of_bad
          (List.asString (((s.data.dropWhile (fun c => c = '#')).drop 4).take 2)) c hcm hcb]
        cases pyIntHex (List.asString ((s.data.dropWhile (fun c => c = '#')).take 2)) <;>
          cases pyIntHex (List.asString
            (((s.data.dropWhile (fun c => c = '#')).drop 2).take 2)) <;> rfl
    · rw [if_neg hl]

/-- C10 corrected: a glyph whose color value is guaranteed unparsable for
int(x, 16) - a non-string value, a string without exactly six characters
after the leading hashes (such as the 3-digit form), or one whose parsed
slices contain a character such as z that no hexadecimal int parse can
consume - never fires the light-color check nor the collision check, and a
glyph with no color key never fires the light-color check; but when the
color key is absent the collision check runs against the default #000000
and can still fire, as the counterexample shows. -/
theorem c10_unparsable_color_never_hits :
    (∀ (c : Glyph) (v : PyVal), c.color = some v →
        definitelyUnparsableColor v = true →
        lightHit c = false ∧ bgCollisionHit c = false) ∧
      ∀ c : Glyph, c.color = none → lightHit c = false := by
  constructor
  · intro c v hc hun
    have hp : parseColor v = none := parseColor_none_of_definitely v hun
    constructor
    · simp only [lightHit, hc]
      simp only [is_light_color, hp]
    · cases hb : c.bgcolor with
      | none => simp [bgCollisionHit, hb]
      | some bg =>
        simp only [bgCollisionHit, hb, hc, Option.getD_some]
        cases hpb : parseColor bg <;> simp [colors_too_similar, hpb, hp]
  · intro c hc
    simp [lightHit, hc]

theorem c10_unparsable_color_never_hits_witness :
    lightHit badColorGlyph = false ∧ bgCollisionHit badColorGlyph = false :=
  c10_unparsable_color_never_hits.1 badColorGlyph (PyVal.str "#fff") rfl rfl
